import Mathlib

/-!
Shallow embedding of `src/app/api/check-pricing-v2/route.ts` (the `POST`
handler): availability-aware pricing for a rental property over a date range.

Modelling conventions:
* JavaScript dates reduced to calendar dates (year, month, day); the handler
  zeroes the time-of-day before comparing, and `parseISO` of a `yyyy-MM-dd`
  string yields midnight, so date-only arithmetic is faithful.
* JS numbers that hold prices, fees and stay lengths are modelled as `Int`
  (the handler only adds, multiplies and compares them).
* A missing JSON field or `undefined` value is `Option.none`; the falsiness
  of `0` where the source tests truthiness (`if (occupancyPrice)`,
  `dayPrice.minimumStay && ...`, `|| 0`) is modelled explicitly.
* The external collaborators (`checkAvailabilityWithFlags`,
  `getPriceCalendarWithDb`, `calculateBookingPrice`) are inputs to `POST`:
  the availability answer as a value, the other two as functions.
-/

namespace CheckPricingV2

/-- A calendar date (proleptic Gregorian, year ≥ 1). Stands for the JS `Date`
values after the handler's time-of-day zeroing. -/
structure CalDate where
  year : Nat
  month : Nat
  day : Nat
deriving Repr, DecidableEq

/-- Gregorian leap-year rule. -/
def isLeapYear (y : Nat) : Bool :=
  (y % 4 == 0 && y % 100 != 0) || y % 400 == 0

/-- Days in a month of a given year. -/
def daysInMonth (y m : Nat) : Nat :=
  if m = 2 then (if isLeapYear y then 29 else 28)
  else if m = 4 ∨ m = 6 ∨ m = 9 ∨ m = 11 then 30
  else 31

/-- Days in year `y` strictly before month `m`. -/
def daysBeforeMonth (y m : Nat) : Nat :=
  (List.range (m - 1)).foldl (fun acc i => acc + daysInMonth y (i + 1)) 0

/-- Leap years strictly before year `y`. -/
def leapYearsBefore (y : Nat) : Nat :=
  (y - 1) / 4 - (y - 1) / 100 + (y - 1) / 400

/-- Rata-die style day number; two valid dates compare the way the JS `Date`
timestamps compare. -/
def toOrdinal (d : CalDate) : Nat :=
  365 * (d.year - 1) + leapYearsBefore d.year + daysBeforeMonth d.year d.month + d.day

/-- `differenceInDays(a, b)` from date-fns on date-only values. -/
def differenceInDays (a b : CalDate) : Int :=
  (toOrdinal a : Int) - (toOrdinal b : Int)

/-- The day after `d`; embeds `currentDate.setDate(currentDate.getDate() + 1)`
with JS rollover across month and year ends. -/
def nextDay (d : CalDate) : CalDate :=
  if d.day < daysInMonth d.year d.month then ⟨d.year, d.month, d.day + 1⟩
  else if d.month < 12 then ⟨d.year, d.month + 1, 1⟩
  else ⟨d.year + 1, 1, 1⟩

/-- Zero-pad to two digits. -/
def pad2 (n : Nat) : String :=
  if n < 10 then "0" ++ toString n else toString n

/-- Zero-pad to four digits. -/
def pad4 (n : Nat) : String :=
  if n < 10 then "000" ++ toString n
  else if n < 100 then "00" ++ toString n
  else if n < 1000 then "0" ++ toString n
  else toString n

/-- `format(date, 'yyyy-MM-dd')` from date-fns. -/
def formatDate (d : CalDate) : String :=
  pad4 d.year ++ "-" ++ pad2 d.month ++ "-" ++ pad2 d.day

/-- One entry of `pricingConfig.lengthOfStayDiscounts`; its content is only
passed through to the aggregator, never inspected by the handler. -/
structure LengthOfStayDiscount where
  nightsThreshold : Nat
  discountValue : Int
deriving Repr, DecidableEq

/-- The property record returned by `getPropertyWithDb`. Optional fields are
those the source reads defensively (`?? 1`, `|| 0`, `?.`). -/
structure PropertyProfile where
  baseOccupancy : Nat
  extraGuestFee : Option Int
  pricePerNight : Int
  cleaningFee : Option Int
  baseCurrency : String
  defaultMinimumStay : Option Int
  lengthOfStayDiscounts : Option (List LengthOfStayDiscount)
deriving Repr, DecidableEq

/-- One day's entry in a price calendar: base price, optional per-occupancy
price overrides keyed by the guest count's decimal string, optional
minimum-stay value. -/
structure DayPrice where
  basePrice : Int
  prices : Option (List (String × Int))
  minimumStay : Option Int
deriving Repr, DecidableEq

/-- One month's price calendar as returned by `getPriceCalendarWithDb`;
`days` is keyed by the day-of-month's decimal string. -/
structure PriceCalendarMonth where
  year : Nat
  month : Nat
  days : List (String × DayPrice)
deriving Repr, DecidableEq

/-- Result of `checkAvailabilityWithFlags`. -/
structure AvailabilityResult where
  isAvailable : Bool
  unavailableDates : List String
  source : String
deriving Repr, DecidableEq

/-- Output of `calculateBookingPrice`, opaque to the handler: it is spread
into the response unchanged. Field values are whatever the aggregator
returns. -/
structure PricingDetails where
  subtotal : Int
  accommodationTotal : Int
  totalPrice : Int
  total : Int
  numberOfNights : Int
deriving Repr, DecidableEq, Inhabited

/-- The request body `{ propertyId, checkIn, checkOut, guests }`. An absent
`checkIn`/`checkOut` is `none`; an absent/falsy `propertyId` is `""`; an
absent/falsy `guests` is `0` (the source's missing-parameter test is by
truthiness). Dates are assumed well-formed ISO strings, held parsed. -/
structure BookingRequest where
  propertyId : String
  checkIn : Option CalDate
  checkOut : Option CalDate
  guests : Nat
deriving Repr, DecidableEq

/-- Lines 122-124: find the calendar whose `year`/`month` fields match the
current date, then index its `days` by the day-of-month string. The source's
two falsiness tests (`!calendar || !calendar.days[day]`) both fail into the
same outcome, so they are fused into one `Option`. -/
def findDay (calendars : List PriceCalendarMonth) (d : CalDate) : Option DayPrice :=
  match calendars.find? (fun c => c.year == d.year && c.month == d.month) with
  | none => none
  | some calendar => calendar.days.lookup (toString d.day)

/-- Lines 136-155: price resolution for one night. `guests ≤ baseOccupancy`
takes `basePrice`; otherwise the per-occupancy override is looked up by the
guest count's string and tested by JS truthiness (an entry holding `0` is
falsy and falls through); otherwise the fallback formula
`basePrice + extraGuests * (extraGuestFee || 0)`. -/
def resolveNightPrice (property : PropertyProfile) (guests : Nat) (dayPrice : DayPrice) : Int :=
  if guests ≤ property.baseOccupancy then
    dayPrice.basePrice
  else
    match dayPrice.prices.bind (fun ps => ps.lookup (toString guests)) with
    | some occupancyPrice =>
      if occupancyPrice = 0 then
        dayPrice.basePrice + ((guests : Int) - (property.baseOccupancy : Int)) *
          (property.extraGuestFee.getD 0)
      else occupancyPrice
    | none =>
      dayPrice.basePrice + ((guests : Int) - (property.baseOccupancy : Int)) *
        (property.extraGuestFee.getD 0)

/-- Lines 157-160: `if (dayPrice.minimumStay && dayPrice.minimumStay > minimumStay)`
— the per-day value raises the running value only when present, truthy
(nonzero) and strictly larger. -/
def updateMinStay (minimumStay : Int) (dayMin : Option Int) : Int :=
  match dayMin with
  | some m => if m ≠ 0 ∧ m > minimumStay then m else minimumStay
  | none => minimumStay

/-- Lines 115-164: the per-night loop. Walks `nights` consecutive dates from
`currentDate`, resolving each night's price into `dailyPrices` (insertion
order = date order) and folding the minimum stay; fails with the date string
of the first night whose calendar or day entry is missing. -/
def priceLoop (property : PropertyProfile) (guests : Nat)
    (calendars : List PriceCalendarMonth) (currentDate : CalDate) (nights : Nat)
    (dailyPrices : List (String × Int)) (minimumStay : Int) :
    Except String (List (String × Int) × Int) :=
  match nights with
  | 0 => Except.ok (dailyPrices, minimumStay)
  | Nat.succ rest =>
    match findDay calendars currentDate with
    | none => Except.error (formatDate currentDate)
    | some dayPrice =>
      priceLoop property guests calendars (nextDay currentDate) rest
        (dailyPrices ++ [(formatDate currentDate, resolveNightPrice property guests dayPrice)])
        (updateMinStay minimumStay dayPrice.minimumStay)

/-- The `(year, month)` of each night from `d` for `n` nights, in order. -/
def nightMonths (d : CalDate) : Nat → List (Nat × Nat)
  | 0 => []
  | Nat.succ n => (d.year, d.month) :: nightMonths (nextDay d) n

/-- Modelled from the spec: `getMonthsBetweenDates` lives in
`@/lib/pricing/price-calendar-generator`, which is not among the sources; the
spec says the core "computes the distinct set of (year, month) pairs spanned
by [checkInDate, checkOutDate)". -/
def getMonthsBetweenDates (checkIn checkOut : CalDate) : List (Nat × Nat) :=
  (nightMonths checkIn (differenceInDays checkOut checkIn).toNat).dedup

/-- The distinct response shapes of the handler. HTTP envelopes and status
codes are plumbing; each constructor keeps exactly the payload fields the
source puts in the JSON body. -/
inductive ApiResponse where
  | missingParams
  | pastCheckIn
  | invalidDateRange
  | priceDataUnavailable
  | dayPriceUnavailable (dateStr : String)
  | unavailableDates (dates : List String) (source : String)
  | minimumStayViolation (minimumStay requiredNights : Int) (source : String)
  | success (pricing : PricingDetails) (dailyRates : List (String × Int))
      (currency : String) (source : String)
deriving Repr, DecidableEq

/-- The `POST` handler. `today` stands for `new Date()` zeroed;
`availabilityResult` is what `checkAvailabilityWithFlags` returned for this
request; `getPriceCalendarWithDb` and `calculateBookingPrice` are the
collaborator functions. Follows the source's control flow order: missing
params, past check-in, inverted range, availability short-circuit, missing
month calendars, per-night loop, minimum-stay gate, success. -/
def POST (today : CalDate) (property : PropertyProfile)
    (availabilityResult : AvailabilityResult)
    (getPriceCalendarWithDb : Nat → Nat → Option PriceCalendarMonth)
    (calculateBookingPrice :
      List (String × Int) → Int → Option (List LengthOfStayDiscount) → PricingDetails)
    (req : BookingRequest) : ApiResponse :=
  match req.checkIn, req.checkOut with
  | some checkInDate, some checkOutDate =>
    if req.propertyId = "" ∨ req.guests = 0 then ApiResponse.missingParams
    else if toOrdinal checkInDate < toOrdinal today then ApiResponse.pastCheckIn
    else if toOrdinal checkOutDate ≤ toOrdinal checkInDate then ApiResponse.invalidDateRange
    else
      let nights := (differenceInDays checkOutDate checkInDate).toNat
      if availabilityResult.isAvailable = false then
        ApiResponse.unavailableDates availabilityResult.unavailableDates
          availabilityResult.source
      else
        let months := getMonthsBetweenDates checkInDate checkOutDate
        let calendars := months.map (fun ym => getPriceCalendarWithDb ym.1 ym.2)
        if calendars.any (fun c => c.isNone) then ApiResponse.priceDataUnavailable
        else
          match priceLoop property req.guests calendars.reduceOption checkInDate nights
              [] (property.defaultMinimumStay.getD 1) with
          | Except.error dateStr => ApiResponse.dayPriceUnavailable dateStr
          | Except.ok (dailyPrices, minimumStay) =>
            if (nights : Int) < minimumStay then
              ApiResponse.minimumStayViolation minimumStay minimumStay
                availabilityResult.source
            else
              ApiResponse.success
                (calculateBookingPrice dailyPrices (property.cleaningFee.getD 0)
                  property.lengthOfStayDiscounts)
                dailyPrices property.baseCurrency availabilityResult.source
  | _, _ => ApiResponse.missingParams

/-- The `meta.source` field of a response, for the three shapes that carry
one. -/
def sourceOf : ApiResponse → Option String
  | ApiResponse.unavailableDates _ s => some s
  | ApiResponse.minimumStayViolation _ _ s => some s
  | ApiResponse.success _ _ _ s => some s
  | _ => none

/-- The per-night `minimumStay` values present on the day entries the loop
visits from `d` for `n` nights (empty tail once a day entry is missing, where
the loop aborts anyway). -/
def collectMinStays (calendars : List PriceCalendarMonth) (d : CalDate) : Nat → List Int
  | 0 => []
  | Nat.succ n =>
    match findDay calendars d with
    | none => []
    | some dayPrice => dayPrice.minimumStay.toList ++ collectMinStays calendars (nextDay d) n

/-! ## Concrete fixtures

Small concrete instances used to exercise the theorems below. `propF` is the
spec's running example property (base occupancy 2, extra-guest fee 10). -/

/-- January 1 of year 1. -/
def dJan1 : CalDate := ⟨1, 1, 1⟩

/-- January 2 of year 1. -/
def dJan2 : CalDate := ⟨1, 1, 2⟩

/-- January 3 of year 1. -/
def dJan3 : CalDate := ⟨1, 1, 3⟩

/-- Example property: base occupancy 2, extra-guest fee 10. -/
def propF : PropertyProfile := ⟨2, some 10, 100, some 20, "EUR", some 1, none⟩

/-- A day entry with no overrides and no minimum stay. -/
def dpPlain : DayPrice := ⟨100, none, none⟩

/-- A day entry with a per-day minimum stay of 3. -/
def dpMin3 : DayPrice := ⟨100, none, some 3⟩

/-- A day entry whose override for 3 guests is `0`. -/
def dpZero : DayPrice := ⟨100, some [("3", 0)], none⟩

/-- A day entry whose override for 4 guests is `150`. -/
def dpOv : DayPrice := ⟨100, some [("4", 150)], none⟩

/-- Calendar for (year 1, month 1) with day 1 plain and day 2 requiring a
3-night minimum stay. -/
def calF : PriceCalendarMonth := ⟨1, 1, [("1", dpPlain), ("2", dpMin3)]⟩

/-- An availability answer reporting the range free. -/
def availOk : AvailabilityResult := ⟨true, [], "availability-collection"⟩

/-- An availability answer reporting the range blocked. -/
def availNo : AvailabilityResult := ⟨false, ["0001-01-01"], "availability-collection"⟩

/-- Calendar lookup serving `calF` for (1, 1) and nothing else. -/
def gcF : Nat → Nat → Option PriceCalendarMonth :=
  fun y m => if y == 1 && m == 1 then some calF else none

/-- Calendar lookup with every month absent. -/
def gcNone : Nat → Nat → Option PriceCalendarMonth := fun _ _ => none

/-- A stand-in aggregator (its output is opaque to the handler). -/
def aggF : List (String × Int) → Int → Option (List LengthOfStayDiscount) → PricingDetails :=
  fun _ _ _ => ⟨0, 0, 0, 0, 0⟩

/-! ## Helper lemmas -/

/-- `updateMinStay` never lowers a non-negative running value below zero. -/
theorem updateMinStay_nonneg (ms : Int) (o : Option Int) (h : 0 ≤ ms) :
    0 ≤ updateMinStay ms o := by
  cases o with
  | none => exact h
  | some m =>
    simp only [updateMinStay]
    split
    · next hc => exact h.trans hc.2.le
    · exact h

/-- On a non-negative running value, the source's truthiness-guarded update
(lines 158-160) coincides with taking the maximum with the day's present
`minimumStay` value. -/
theorem updateMinStay_eq_fold (ms : Int) (o : Option Int) (h : 0 ≤ ms) :
    updateMinStay ms o = List.foldl max ms o.toList := by
  cases o with
  | none => rfl
  | some m =>
    have hfold : List.foldl max ms (Option.toList (some m)) = max ms m := rfl
    rw [hfold]
    simp only [updateMinStay]
    rcases lt_or_le ms m with hlt | hle
    · have hm0 : m ≠ 0 := ne_of_gt (h.trans_lt hlt)
      rw [if_pos ⟨hm0, hlt⟩, max_eq_right hlt.le]
    · rw [if_neg (fun hc => absurd hc.2 (not_lt.mpr hle)), max_eq_left hle]

/-- When the per-night loop succeeds from a non-negative seed, its final
minimum-stay value is the fold of `max` over the seed and every per-night
`minimumStay` present on the visited day entries. -/
theorem priceLoop_minStay_eq_fold (p : PropertyProfile) (g : Nat)
    (cals : List PriceCalendarMonth) :
    ∀ (n : Nat) (cur : CalDate) (acc : List (String × Int)) (ms : Int), 0 ≤ ms →
    ∀ out final, priceLoop p g cals cur n acc ms = Except.ok (out, final) →
    final = List.foldl max ms (collectMinStays cals cur n) := by
  intro n
  induction n with
  | zero =>
    intro cur acc ms h0 out final hloop
    simp only [priceLoop, Except.ok.injEq, Prod.mk.injEq] at hloop
    obtain ⟨-, rfl⟩ := hloop
    simp [collectMinStays]
  | succ rest ih =>
    intro cur acc ms h0 out final hloop
    simp only [priceLoop] at hloop
    cases hfd : findDay cals cur with
    | none => rw [hfd] at hloop; exact absurd hloop (by simp)
    | some dayPrice =>
      rw [hfd] at hloop
      have h0' := updateMinStay_nonneg ms dayPrice.minimumStay h0
      have hrec := ih (nextDay cur) _ _ h0' out final hloop
      rw [hrec, updateMinStay_eq_fold ms dayPrice.minimumStay h0]
      simp only [collectMinStays, hfd]
      rw [List.foldl_append]

/-! ## Claim theorems -/

/-- Claim C6: for a night where `guests ≤ baseOccupancy`, the resolved
nightly price is exactly `dayPrice.basePrice`, whatever the occupancy
overrides and the extra-guest fee are. -/
theorem base_occupancy_price (p : PropertyProfile) (guests : Nat) (dp : DayPrice)
    (h : guests ≤ p.baseOccupancy) :
    resolveNightPrice p guests dp = dp.basePrice := by
  simp [resolveNightPrice, h]

/-- Witness for C6: two guests on the example property resolve to the base
price even though an extra-guest fee is configured. -/
theorem base_occupancy_price_witness :
    2 ≤ propF.baseOccupancy ∧ resolveNightPrice propF 2 dpOv = dpOv.basePrice :=
  ⟨by decide, base_occupancy_price propF 2 dpOv (by decide)⟩

/-- Claim C1 (amended): for a night where `guests > baseOccupancy` and
`dayPrice.prices` holds an entry for the guest count's string whose value is
nonzero, the resolved nightly price is that override, regardless of what the
fallback formula would give. (The claim as stated fails when the stored
override is `0`: the source tests the override by truthiness, see
`zero_override_counterexample`.) -/
theorem override_wins_when_nonzero (p : PropertyProfile) (guests : Nat) (dp : DayPrice)
    (v : Int) (hocc : p.baseOccupancy < guests)
    (hfind : dp.prices.bind (fun ps => ps.lookup (toString guests)) = some v)
    (hv : v ≠ 0) :
    resolveNightPrice p guests dp = v := by
  have hng : ¬ guests ≤ p.baseOccupancy := not_le.mpr hocc
  simp [resolveNightPrice, hng, hfind, hv]

/-- Witness for C1 (amended): four guests with an override of 150 resolve to
150, not to the formula value 120. -/
theorem override_wins_when_nonzero_witness :
    propF.baseOccupancy < 4 ∧
    (dpOv.prices.bind fun ps => ps.lookup (toString 4)) = some 150 ∧
    resolveNightPrice propF 4 dpOv = 150 :=
  ⟨by decide, by decide,
    override_wins_when_nonzero propF 4 dpOv 150 (by decide) (by decide) (by decide)⟩

/-- Counterexample to C1 as stated: `dpZero.prices` holds an exact entry for
3 guests (value `0`), yet with 3 guests on `propF` the resolved price is the
fallback `100 + 1 * 10 = 110`, not the stored override `0`. -/
theorem zero_override_counterexample :
    (dpZero.prices.bind fun ps => ps.lookup (toString 3)) = some 0 ∧
    propF.baseOccupancy < 3 ∧
    resolveNightPrice propF 3 dpZero = 110 ∧ (110 : Int) ≠ 0 := by
  decide

/-- Claim C7: for a night where `guests > baseOccupancy` and no override
entry exists for the guest count, the resolved price is
`basePrice + (guests - baseOccupancy) * extraGuestFee`, with the fee read as
0 when absent. -/
theorem fallback_formula_price (p : PropertyProfile) (guests : Nat) (dp : DayPrice)
    (hocc : p.baseOccupancy < guests)
    (hmiss : dp.prices.bind (fun ps => ps.lookup (toString guests)) = none) :
    resolveNightPrice p guests dp =
      dp.basePrice + ((guests : Int) - (p.baseOccupancy : Int)) *
        (p.extraGuestFee.getD 0) := by
  have hng : ¬ guests ≤ p.baseOccupancy := not_le.mpr hocc
  simp [resolveNightPrice, hng, hmiss]

/-- Witness for C7: four guests with no override resolve to
`100 + (4 - 2) * 10 = 120`. -/
theorem fallback_formula_price_witness :
    propF.baseOccupancy < 4 ∧
    (dpPlain.prices.bind fun ps => ps.lookup (toString 4)) = none ∧
    resolveNightPrice propF 4 dpPlain =
      dpPlain.basePrice + ((4 : Int) - (propF.baseOccupancy : Int)) *
        (propF.extraGuestFee.getD 0) :=
  ⟨by decide, by decide, fallback_formula_price propF 4 dpPlain (by decide) (by decide)⟩

/-- Claim C10: for a night where `guests > baseOccupancy` and the override
mapping holds an entry for the guest count whose value is `0`, the override
is skipped (the source tests it by truthiness, not key presence) and the
price falls through to the formula. -/
theorem zero_override_falls_through (p : PropertyProfile) (guests : Nat) (dp : DayPrice)
    (hocc : p.baseOccupancy < guests)
    (hzero : dp.prices.bind (fun ps => ps.lookup (toString guests)) = some 0) :
    resolveNightPrice p guests dp =
      dp.basePrice + ((guests : Int) - (p.baseOccupancy : Int)) *
        (p.extraGuestFee.getD 0) := by
  have hng : ¬ guests ≤ p.baseOccupancy := not_le.mpr hocc
  simp [resolveNightPrice, hng, hzero]

/-- Witness for C10: three guests with a stored override of `0` resolve to
the formula value `110`. -/
theorem zero_override_falls_through_witness :
    propF.baseOccupancy < 3 ∧
    (dpZero.prices.bind fun ps => ps.lookup (toString 3)) = some 0 ∧
    resolveNightPrice propF 3 dpZero =
      dpZero.basePrice + ((3 : Int) - (propF.baseOccupancy : Int)) *
        (propF.extraGuestFee.getD 0) :=
  ⟨by decide, by decide, zero_override_falls_through propF 3 dpZero (by decide) (by decide)⟩

/-- Claim C2: when the per-night loop succeeds, the effective minimum stay it
returns equals the fold of `max` over the seed
`property.defaultMinimumStay.getD 1` and every per-night `minimumStay`
present across the whole range — so it is the maximum of the seed and all
per-night values (never the first, last or average), and a per-day value
smaller than the seed never lowers it. The seed is non-negative whenever the
data-model invariant `defaultMinimumStay ≥ 1` holds. -/
theorem effectiveMinimumStay_eq_max_fold (property : PropertyProfile) (guests : Nat)
    (calendars : List PriceCalendarMonth) (checkInDate : CalDate) (nights : Nat)
    (dailyPrices : List (String × Int)) (finalMinStay : Int)
    (hseed : 0 ≤ property.defaultMinimumStay.getD 1)
    (hloop : priceLoop property guests calendars checkInDate nights []
      (property.defaultMinimumStay.getD 1) = Except.ok (dailyPrices, finalMinStay)) :
    finalMinStay = List.foldl max (property.defaultMinimumStay.getD 1)
      (collectMinStays calendars checkInDate nights) :=
  priceLoop_minStay_eq_fold property guests calendars nights checkInDate []
    (property.defaultMinimumStay.getD 1) hseed dailyPrices finalMinStay hloop

/-- Witness for C2: over the two-night range the loop returns 3, the maximum
of the seed 1 and the per-night values {3}. -/
theorem effectiveMinimumStay_eq_max_fold_witness :
    (0 : Int) ≤ propF.defaultMinimumStay.getD 1 ∧
    (3 : Int) = List.foldl max (propF.defaultMinimumStay.getD 1)
      (collectMinStays [calF] dJan1 2) :=
  ⟨by decide,
    effectiveMinimumStay_eq_max_fold propF 2 [calF] dJan1 2
      [("0001-01-01", 100), ("0001-01-02", 100)] 3 (by decide) rfl⟩

/-- Claim C3: once validation passes, an availability answer with
`isAvailable = false` makes the handler return the `unavailable_dates`
outcome carrying the unavailable date list and the source tag — for every
calendar lookup and every aggregator, so neither is consulted, and the
outcome is never the positive one. -/
theorem unavailable_short_circuits (today : CalDate) (property : PropertyProfile)
    (availabilityResult : AvailabilityResult) (pid : String) (ci co : CalDate)
    (guests : Nat)
    (hpid : pid ≠ "") (hg : guests ≠ 0)
    (hpast : ¬ toOrdinal ci < toOrdinal today)
    (hrange : ¬ toOrdinal co ≤ toOrdinal ci)
    (hav : availabilityResult.isAvailable = false) :
    ∀ gc agg, POST today property availabilityResult gc agg ⟨pid, some ci, some co, guests⟩ =
      ApiResponse.unavailableDates availabilityResult.unavailableDates
        availabilityResult.source := by
  intro gc agg
  simp [POST, hpid, hg, hpast, hrange, hav]

/-- Witness for C3: a blocked range returns the unavailable-dates outcome
even when every calendar is absent. -/
theorem unavailable_short_circuits_witness :
    availNo.isAvailable = false ∧
    POST dJan1 propF availNo gcNone aggF ⟨"p1", some dJan1, some dJan3, 2⟩ =
      ApiResponse.unavailableDates availNo.unavailableDates availNo.source :=
  ⟨by decide,
    unavailable_short_circuits dJan1 propF availNo "p1" dJan1 dJan3 2
      (by decide) (by decide) (by decide) (by decide) (by decide) gcNone aggF⟩

/-- Claim C4: when the per-night loop has resolved every nightly price and
returned an effective minimum stay exceeding the night count, the handler
returns the `minimum_stay` outcome whose `minimumStay` and `requiredNights`
both equal that effective value — for every aggregator, so the aggregator is
not consulted. The hypothesis that the loop returned `ok` is exactly the
"check happens only after all nightly prices are resolved" ordering: a range
with a missing day entry takes the `dayPriceUnavailable` branch instead. -/
theorem minimum_stay_gate (today : CalDate) (property : PropertyProfile)
    (availabilityResult : AvailabilityResult)
    (gc : Nat → Nat → Option PriceCalendarMonth) (pid : String) (ci co : CalDate)
    (guests : Nat) (dailyPrices : List (String × Int)) (finalMinStay : Int)
    (hpid : pid ≠ "") (hg : guests ≠ 0)
    (hpast : ¬ toOrdinal ci < toOrdinal today)
    (hrange : ¬ toOrdinal co ≤ toOrdinal ci)
    (hav : availabilityResult.isAvailable = true)
    (hcal : (((getMonthsBetweenDates ci co).map fun ym => gc ym.1 ym.2).any
      fun c => c.isNone) = false)
    (hloop : priceLoop property guests
      ((getMonthsBetweenDates ci co).map fun ym => gc ym.1 ym.2).reduceOption ci
      (differenceInDays co ci).toNat [] (property.defaultMinimumStay.getD 1) =
      Except.ok (dailyPrices, finalMinStay))
    (hlt : (((differenceInDays co ci).toNat : Nat) : Int) < finalMinStay) :
    ∀ agg, POST today property availabilityResult gc agg ⟨pid, some ci, some co, guests⟩ =
      ApiResponse.minimumStayViolation finalMinStay finalMinStay
        availabilityResult.source := by
  intro agg
  have h1 : toOrdinal ci < toOrdinal co := not_le.mp hrange
  have hpos : 0 < differenceInDays co ci := by unfold differenceInDays; omega
  have hlt2 : differenceInDays co ci < finalMinStay := by
    rwa [Int.toNat_of_nonneg hpos.le] at hlt
  simp [POST, hpid, hg, hpast, hrange, hav, hcal, hloop, hlt2, hpos.trans hlt2]

/-- Witness for C4: a two-night stay over a range whose second night requires
three nights is rejected with `minimumStay = requiredNights = 3`. -/
theorem minimum_stay_gate_witness :
    ((((differenceInDays dJan3 dJan1).toNat : Nat) : Int) < 3) ∧
    POST dJan1 propF availOk gcF aggF ⟨"p1", some dJan1, some dJan3, 2⟩ =
      ApiResponse.minimumStayViolation 3 3 availOk.source :=
  ⟨by decide,
    minimum_stay_gate dJan1 propF availOk gcF "p1" dJan1 dJan3 2
      [("0001-01-01", 100), ("0001-01-02", 100)] 3
      (by decide) (by decide) (by decide) (by decide) (by decide) (by decide) rfl
      (by decide) aggF⟩

/-- Claim C5 (amended): once the required parameters are present and the
check-in date is not in the past, a request with `checkIn ≥ checkOut` yields
the invalid-date-range failure regardless of the remaining fields. (The
claim as stated fails: the past-check-in test runs first, see
`past_checkin_precedes_range_check`.) -/
theorem invalid_range_after_validation (today : CalDate) (property : PropertyProfile)
    (availabilityResult : AvailabilityResult)
    (gc : Nat → Nat → Option PriceCalendarMonth)
    (agg : List (String × Int) → Int → Option (List LengthOfStayDiscount) → PricingDetails)
    (pid : String) (ci co : CalDate) (guests : Nat)
    (hpid : pid ≠ "") (hg : guests ≠ 0)
    (hpast : ¬ toOrdinal ci < toOrdinal today)
    (hrange : toOrdinal co ≤ toOrdinal ci) :
    POST today property availabilityResult gc agg ⟨pid, some ci, some co, guests⟩ =
      ApiResponse.invalidDateRange := by
  simp [POST, hpid, hg, hpast, hrange]

/-- Witness for C5 (amended): with check-in on today and check-out the same
day, the handler reports the inverted range. -/
theorem invalid_range_after_validation_witness :
    toOrdinal dJan1 ≤ toOrdinal dJan1 ∧
    POST dJan1 propF availOk gcF aggF ⟨"p1", some dJan1, some dJan1, 2⟩ =
      ApiResponse.invalidDateRange :=
  ⟨by decide,
    invalid_range_after_validation dJan1 propF availOk gcF aggF "p1" dJan1 dJan1 2
      (by decide) (by decide) (by decide) (by decide)⟩

/-- Counterexample to C5 as stated: a request with `checkIn = checkOut`
(hence `checkIn ≥ checkOut`) whose check-in lies before today is answered
with the past-check-in failure, not the invalid-date-range one. -/
theorem past_checkin_precedes_range_check :
    toOrdinal dJan1 ≤ toOrdinal dJan1 ∧
    POST dJan2 propF availOk gcF aggF ⟨"p1", some dJan1, some dJan1, 2⟩ =
      ApiResponse.pastCheckIn ∧
    ApiResponse.pastCheckIn ≠ ApiResponse.invalidDateRange := by
  decide

/-- Claim C8: after validation and a positive availability answer, (a) if any
required month's calendar is absent the handler fails with the range-level
price-data-unavailable outcome, whatever the calendars' day contents are;
(b) if every month calendar is present but the loop aborts on a night, the
handler fails with the per-night outcome naming that night's date string. -/
theorem calendar_missing_failures (today : CalDate) (property : PropertyProfile)
    (availabilityResult : AvailabilityResult)
    (gc : Nat → Nat → Option PriceCalendarMonth)
    (agg : List (String × Int) → Int → Option (List LengthOfStayDiscount) → PricingDetails)
    (pid : String) (ci co : CalDate) (guests : Nat)
    (hpid : pid ≠ "") (hg : guests ≠ 0)
    (hpast : ¬ toOrdinal ci < toOrdinal today)
    (hrange : ¬ toOrdinal co ≤ toOrdinal ci)
    (hav : availabilityResult.isAvailable = true) :
    ((((getMonthsBetweenDates ci co).map fun ym => gc ym.1 ym.2).any
        fun c => c.isNone) = true →
      POST today property availabilityResult gc agg ⟨pid, some ci, some co, guests⟩ =
        ApiResponse.priceDataUnavailable) ∧
    (∀ dateStr,
      (((getMonthsBetweenDates ci co).map fun ym => gc ym.1 ym.2).any
        fun c => c.isNone) = false →
      priceLoop property guests
        ((getMonthsBetweenDates ci co).map fun ym => gc ym.1 ym.2).reduceOption ci
        (differenceInDays co ci).toNat [] (property.defaultMinimumStay.getD 1) =
        Except.error dateStr →
      POST today property availabilityResult gc agg ⟨pid, some ci, some co, guests⟩ =
        ApiResponse.dayPriceUnavailable dateStr) := by
  constructor
  · intro hmiss
    simp [POST, hpid, hg, hpast, hrange, hav, hmiss]
  · intro dateStr hcal hloop
    simp [POST, hpid, hg, hpast, hrange, hav, hcal, hloop]

/-- Witness for C8: with every month calendar absent, the two-night request
fails with the range-level outcome. -/
theorem calendar_missing_failures_witness :
    ((((getMonthsBetweenDates dJan1 dJan3).map fun ym => gcNone ym.1 ym.2).any
      fun c => c.isNone) = true) ∧
    POST dJan1 propF availOk gcNone aggF ⟨"p1", some dJan1, some dJan3, 2⟩ =
      ApiResponse.priceDataUnavailable :=
  ⟨by decide,
    (calendar_missing_failures dJan1 propF availOk gcNone aggF "p1" dJan1 dJan3 2
      (by decide) (by decide) (by decide) (by decide) (by decide)).1 (by decide)⟩

/-- Claim C9: whenever the handler's response carries a `meta.source` field
(the unavailable-dates, minimum-stay and success shapes), that field is the
availability result's provenance tag, unchanged. -/
theorem meta_source_passthrough (today : CalDate) (property : PropertyProfile)
    (availabilityResult : AvailabilityResult)
    (gc : Nat → Nat → Option PriceCalendarMonth)
    (agg : List (String × Int) → Int → Option (List LengthOfStayDiscount) → PricingDetails)
    (req : BookingRequest) (s : String)
    (h : sourceOf (POST today property availabilityResult gc agg req) = some s) :
    s = availabilityResult.source := by
  rcases req with ⟨pid, ci, co, guests⟩
  cases ci with
  | none => simp [POST, sourceOf] at h
  | some ci =>
    cases co with
    | none => simp [POST, sourceOf] at h
    | some co =>
      simp only [POST] at h
      repeat' split at h
      all_goals simp_all [sourceOf]

/-- Witness for C9: the unavailable-dates response of the blocked fixture
carries the availability source tag. -/
theorem meta_source_passthrough_witness :
    sourceOf (POST dJan1 propF availNo gcF aggF ⟨"p1", some dJan1, some dJan3, 2⟩) =
      some "availability-collection" ∧
    "availability-collection" = availNo.source :=
  ⟨by decide,
    meta_source_passthrough dJan1 propF availNo gcF aggF
      ⟨"p1", some dJan1, some dJan3, 2⟩ "availability-collection" (by decide)⟩

end CheckPricingV2
